import Mathlib

/-!
Shallow embedding of the Vulkan WSI layer's swapchain entrypoints
(src/layer/swapchain_api.cpp) and of the surface property query helpers
(src/wsi/surface_properties.hpp, and the Wayland/X11 surface_properties
implementations), together with theorems checking the specification's
claims against them.

Vulkan handles (VkSwapchainKHR, VkSemaphore, VkFence, ...) are modelled as
natural numbers, with 0 standing for VK_NULL_HANDLE.  VkResult is modelled
as the integer result code.  Calls into parts of the repository that are
not in scope (the driver dispatch table, wsi::swapchain_base's virtual
operations, the synchronization bridge) are modelled as oracle functions
supplied as parameters, so that the entrypoint control flow - which is
what the claims are about - is embedded faithfully.
-/

/-! ## Vulkan result codes and enums -/

/-- VkResult as its integer code. -/
abbrev VkResult := Int

def VK_SUCCESS : VkResult := 0
def VK_NOT_READY : VkResult := 1
def VK_INCOMPLETE : VkResult := 5
def VK_ERROR_OUT_OF_HOST_MEMORY : VkResult := -1
def VK_ERROR_INITIALIZATION_FAILED : VkResult := -3
def VK_ERROR_FORMAT_NOT_SUPPORTED : VkResult := -11

/-- VkPresentModeKHR as its integer code. -/
abbrev VkPresentModeKHR := Nat

def VK_PRESENT_MODE_IMMEDIATE_KHR : VkPresentModeKHR := 0
def VK_PRESENT_MODE_MAILBOX_KHR : VkPresentModeKHR := 1
def VK_PRESENT_MODE_FIFO_KHR : VkPresentModeKHR := 2
def VK_PRESENT_MODE_FIFO_RELAXED_KHR : VkPresentModeKHR := 3

/-! ## Surface formats (src/wsi/surface_properties.hpp) -/

/-- VkSurfaceFormatKHR: a format / colorspace pair. -/
structure VkSurfaceFormatKHR where
  format : Nat
  colorSpace : Nat
deriving DecidableEq, Repr

/-- wsi::surface_format_properties: the per-format record kept in the
memoized format map.  The private m_compression member is abstracted to a
number; it only flows into the extended (VkSurfaceFormat2KHR) output. -/
structure surface_format_properties where
  m_surface_format : VkSurfaceFormatKHR
  m_compression : Nat
deriving DecidableEq, Repr

/-- surface_format_properties::fill_format_properties: fills a
VkSurfaceFormat2KHR from the record (surface format plus compression
properties chained on pNext). -/
def fill_format_properties (p : surface_format_properties) : VkSurfaceFormatKHR × Nat :=
  (p.m_surface_format, p.m_compression)

/-- The writing loop of wsi::surface_properties_formats_helper: iterates the
format records, stopping once format_count reaches the (already clamped)
caller capacity; each iteration writes either the plain surface format (when
extended_surface_formats is null) or the extended one.  Returns the two
write traces. -/
def formats_helper_write :
    List surface_format_properties → Nat → Bool →
      List VkSurfaceFormatKHR × List (VkSurfaceFormatKHR × Nat)
  | [], _, _ => ([], [])
  | _ :: _, 0, _ => ([], [])
  | p :: ps, Nat.succ k, extended =>
    let rest := formats_helper_write ps k extended
    if extended then (rest.1, fill_format_properties p :: rest.2)
    else (p.m_surface_format :: rest.1, rest.2)

/-- wsi::surface_properties_formats_helper
(src/wsi/surface_properties.hpp:186-230).  Inputs: the supported format
records (the begin/end iterator range), the value behind
surface_formats_count, and whether the surface_formats respectively
extended_surface_formats output pointers are non-null.  Output: the result
code, the value written back through surface_formats_count, and the entries
written to each output array. -/
def surface_properties_formats_helper (fmts : List surface_format_properties)
    (surface_formats_count : Nat) (has_surface_formats has_extended_formats : Bool) :
    VkResult × Nat × List VkSurfaceFormatKHR × List (VkSurfaceFormatKHR × Nat) :=
  let supported_formats_count := fmts.length
  if has_surface_formats = false ∧ has_extended_formats = false then
    (VK_SUCCESS, supported_formats_count, [], [])
  else
    let res : VkResult :=
      if supported_formats_count > surface_formats_count then VK_INCOMPLETE else VK_SUCCESS
    let count := min surface_formats_count supported_formats_count
    let written := formats_helper_write fmts count has_extended_formats
    (res, count, written.1, written.2)

/-- wsi::get_surface_present_modes_common
(src/wsi/surface_properties.hpp:286-311).  Inputs: the value behind
present_mode_count, whether the present_modes output pointer is non-null,
and the surface's supported modes array.  Output: the result code, the value
written back through present_mode_count, and the modes written to the output
array (the loop writes modes[i] for i below the clamped count). -/
def get_surface_present_modes_common (present_mode_count : Nat) (has_present_modes : Bool)
    (modes : List VkPresentModeKHR) : VkResult × Nat × List VkPresentModeKHR :=
  if has_present_modes = false then
    (VK_SUCCESS, modes.length, [])
  else
    let res : VkResult := if modes.length > present_mode_count then VK_INCOMPLETE else VK_SUCCESS
    let count := min present_mode_count modes.length
    (res, count, (List.range count).map (fun i => modes.getD i 0))

/-! ## Present mode support and compatibility (Wayland and X11 backends) -/

/-- m_supported_modes of both wsi::wayland::surface_properties
(src/unnamed/part_000:66) and wsi::x11::surface_properties
(src/unnamed/part_001:61). -/
def m_supported_modes : List VkPresentModeKHR :=
  [VK_PRESENT_MODE_FIFO_KHR, VK_PRESENT_MODE_MAILBOX_KHR]

/-- wsi::present_mode_compatibility: one row of the static compatibility
table (a mode, the number of modes compatible with it, and those modes). -/
structure present_mode_compatibility where
  present_mode : VkPresentModeKHR
  present_mode_count : Nat
  compatible_modes : List VkPresentModeKHR
deriving DecidableEq, Repr

/-- The table built by
wsi::wayland::surface_properties::populate_present_mode_compatibilities
(src/unnamed/part_000:54-61). -/
def wayland_compatible_present_modes_list : List present_mode_compatibility :=
  [⟨VK_PRESENT_MODE_FIFO_KHR, 1, [VK_PRESENT_MODE_FIFO_KHR]⟩,
   ⟨VK_PRESENT_MODE_MAILBOX_KHR, 1, [VK_PRESENT_MODE_MAILBOX_KHR]⟩]

/-- The table built by
wsi::x11::surface_properties::populate_present_mode_compatibilities
(src/unnamed/part_001:50-57). -/
def x11_compatible_present_modes_list : List present_mode_compatibility :=
  [⟨VK_PRESENT_MODE_FIFO_KHR, 1, [VK_PRESENT_MODE_FIFO_KHR]⟩,
   ⟨VK_PRESENT_MODE_MAILBOX_KHR, 1, [VK_PRESENT_MODE_MAILBOX_KHR]⟩]

/-- Modelled from the spec: the wsi::compatible_present_modes class (its
header is not among the provided sources; only the tables populated into it
are).  Per the spec, "Present-mode compatibility is derived from a static
table: each mode is declared compatible only with itself in this design",
so the membership test derives compatibility of a with b from the table: it
holds when some row for mode a lists b among its compatible modes. -/
def is_compatible_present_modes (table : List present_mode_compatibility)
    (present_mode_a present_mode_b : VkPresentModeKHR) : Bool :=
  table.any (fun entry =>
    present_mode_a = entry.present_mode ∧ present_mode_b ∈ entry.compatible_modes)

/-! ## Present-mode capability query check -/

/-- wsi::check_surface_present_mode_query_is_supported
(src/wsi/surface_properties.hpp:244-260).  The VkSurfacePresentModeEXT found
in the surface info's pNext chain is modelled as an optional present mode
(none when the extension struct is absent). -/
def check_surface_present_mode_query_is_supported
    (surface_present_mode : Option VkPresentModeKHR)
    (modes : List VkPresentModeKHR) : VkResult :=
  match surface_present_mode with
  | some present_mode =>
    if present_mode ∈ modes then VK_SUCCESS else VK_ERROR_OUT_OF_HOST_MEMORY
  | none => VK_SUCCESS

/-- Outcome of the extended capabilities query: the result code and whether
the capabilities outputs were filled in. -/
structure Caps2Outcome where
  ret : VkResult
  capabilities_written : Bool
deriving DecidableEq, Repr

/-- wsi::wayland::surface_properties::get_surface_capabilities (the
VkSurfaceCapabilities2KHR overload, src/unnamed/part_000:96-117).  The TRY
on check_surface_present_mode_query_is_supported returns its error before
any capability field is computed; the subsequent capability computation
(image count limits, compatibility info, scaling capabilities) is abstracted
to the capabilities_written flag since its values come from functions
outside the provided sources. -/
def wayland_get_surface_capabilities2
    (surface_present_mode : Option VkPresentModeKHR) : Caps2Outcome :=
  let r := check_surface_present_mode_query_is_supported surface_present_mode m_supported_modes
  if r ≠ VK_SUCCESS then ⟨r, false⟩
  else ⟨VK_SUCCESS, true⟩

/-! ## Platform presentation support queries -/

/-- GetPhysicalDeviceWaylandPresentationSupportKHR
(src/unnamed/part_000:344-362).  dev_supports_sync abstracts
sync_fd_fence_sync::is_supported, wl_protocols_supported abstracts
check_wl_protocols. -/
def GetPhysicalDeviceWaylandPresentationSupportKHR
    (dev_supports_sync wl_protocols_supported : Bool) : Bool :=
  if ¬ dev_supports_sync then false
  else if ¬ wl_protocols_supported then false
  else true

/-- GetPhysicalDeviceXcbPresentationSupportKHR
(src/unnamed/part_001:270-286).  dev_supports_sync abstracts
sync_fd_fence_sync::is_supported, visual_ok abstracts
visual_supported(connection_get_visualtype(...)). -/
def GetPhysicalDeviceXcbPresentationSupportKHR
    (dev_supports_sync visual_ok : Bool) : Bool :=
  if ¬ dev_supports_sync then false
  else if ¬ visual_ok then false
  else true

/-! ## Create swapchain (src/layer/swapchain_api.cpp:45-77)

The TRY/TRY_LOG/TRY_LOG_CALL macros come from util/helpers.hpp, which is not
among the provided sources.  Modelled from the spec: they evaluate a
VkResult expression and, when it is not VK_SUCCESS, (optionally log and)
return that result from the enclosing function immediately - as the spec's
error policy describes ("allocation failures during synchronization setup
propagate as an out-of-host-memory condition; ... if batch-wait submission
fails, no per-swapchain present step is attempted").  Every embedded
entrypoint below inlines this early-return behaviour at each macro use. -/

/-- VkSwapchainCreateInfoKHR: the present mode, and the remaining fields
(surface, image count, ...) abstracted into fields that are copied
verbatim. -/
structure VkSwapchainCreateInfoKHR where
  surface : Nat
  presentMode : VkPresentModeKHR
  minImageCount : Nat
  other_fields : Nat
deriving DecidableEq, Repr

/-- Oracle for the collaborators of wsi_layer_vkCreateSwapchainKHR: the
handle registry predicates, the ICD dispatch, allocation success, and the
results of swapchain_base::init and add_layer_swapchain. -/
structure CreateOracle where
  should_layer_create_swapchain : Bool
  can_icds_create_swapchain : Bool
  icd_create_result : VkResult
  allocate_surface_swapchain_ok : Bool
  init_result : VkSwapchainCreateInfoKHR → VkResult
  add_layer_swapchain_result : VkResult

/-- Outcome of wsi_layer_vkCreateSwapchainKHR: the returned VkResult and
the trace of create infos passed to swapchain init. -/
structure CreateOutcome where
  ret : VkResult
  init_calls : List VkSwapchainCreateInfoKHR
deriving DecidableEq, Repr

/-- wsi_layer_vkCreateSwapchainKHR (src/layer/swapchain_api.cpp:45-77).
The layer path copies the application's create info, overwrites
presentMode with VK_PRESENT_MODE_FIFO_KHR, and initialises the swapchain
with the copy. -/
def wsi_layer_vkCreateSwapchainKHR (o : CreateOracle)
    (pSwapchainCreateInfo : VkSwapchainCreateInfoKHR) : CreateOutcome :=
  if ¬ o.should_layer_create_swapchain then
    if ¬ o.can_icds_create_swapchain then ⟨VK_ERROR_INITIALIZATION_FAILED, []⟩
    else ⟨o.icd_create_result, []⟩
  else if ¬ o.allocate_surface_swapchain_ok then ⟨VK_ERROR_OUT_OF_HOST_MEMORY, []⟩
  else
    let my_create_info := { pSwapchainCreateInfo with presentMode := VK_PRESENT_MODE_FIFO_KHR }
    let r := o.init_result my_create_info
    if r ≠ VK_SUCCESS then ⟨r, [my_create_info]⟩
    else if o.add_layer_swapchain_result ≠ VK_SUCCESS then
      ⟨o.add_layer_swapchain_result, [my_create_info]⟩
    else ⟨VK_SUCCESS, [my_create_info]⟩

/-! ## Batch image memory bind (src/layer/swapchain_api.cpp:374-425) -/

/-- VkBindImageMemorySwapchainInfoKHR: the targeted swapchain handle
(0 = VK_NULL_HANDLE) and image index. -/
structure VkBindImageMemorySwapchainInfoKHR where
  swapchain : Nat
  imageIndex : Nat
deriving DecidableEq, Repr

/-- One VkBindImageMemoryInfo entry: whether its pNext chain carries a
VkBindImageMemorySwapchainInfoKHR, and whether it carries a
VkBindMemoryStatusKHR with a non-null pResult. -/
structure BindInfo where
  bind_sc_info : Option VkBindImageMemorySwapchainInfoKHR
  has_bind_status : Bool
deriving DecidableEq, Repr

/-- Oracle for the collaborators of wsi_layer_vkBindImageMemory2: the
handle registry, the maintenance6 extension flag, the ICD dispatch result
per entry index, and swapchain_base::is_bind_allowed /
bind_swapchain_image. -/
structure BindOracle where
  layer_owns_swapchain : Nat → Bool
  maintenance_6 : Bool
  dispatch_bind_result : Nat → VkResult
  is_bind_allowed : Nat → Nat → VkResult
  bind_swapchain_image_result : Nat → VkResult

/-- Outcome of wsi_layer_vkBindImageMemory2: the returned VkResult, the
per-entry statuses written through VkBindMemoryStatusKHR::pResult (entry
index paired with the written status), and the indices of the entries whose
bind was attempted. -/
structure BindOutcome where
  ret : VkResult
  statuses_written : List (Nat × VkResult)
  attempted : List Nat
deriving DecidableEq, Repr

/-- The loop body of wsi_layer_vkBindImageMemory2 over the indexed bind
entries, carrying endpoint_result.  The TRY_LOG on is_bind_allowed returns
its error from the whole entrypoint at once (see the macro note above), so
that arm produces the outcome directly, bypassing the status write and the
remaining entries. -/
def bind_loop (o : BindOracle) : List (Nat × BindInfo) → VkResult → BindOutcome
  | [], endpoint_result => ⟨endpoint_result, [], []⟩
  | (i, info) :: rest, endpoint_result =>
    match info.bind_sc_info with
    | none =>
      let result := o.dispatch_bind_result i
      let out := bind_loop o rest (if result ≠ VK_SUCCESS then result else endpoint_result)
      ⟨out.ret,
       (if o.maintenance_6 ∧ info.has_bind_status then [(i, result)] else []) ++ out.statuses_written,
       i :: out.attempted⟩
    | some sci =>
      if sci.swapchain = 0 ∨ o.layer_owns_swapchain sci.swapchain = false then
        let result := o.dispatch_bind_result i
        let out := bind_loop o rest (if result ≠ VK_SUCCESS then result else endpoint_result)
        ⟨out.ret,
         (if o.maintenance_6 ∧ info.has_bind_status then [(i, result)] else []) ++ out.statuses_written,
         i :: out.attempted⟩
      else if o.is_bind_allowed sci.swapchain sci.imageIndex ≠ VK_SUCCESS then
        ⟨o.is_bind_allowed sci.swapchain sci.imageIndex, [], []⟩
      else
        let result := o.bind_swapchain_image_result i
        let out := bind_loop o rest (if result ≠ VK_SUCCESS then result else endpoint_result)
        ⟨out.ret,
         (if o.maintenance_6 ∧ info.has_bind_status then [(i, result)] else []) ++ out.statuses_written,
         i :: out.attempted⟩

/-- wsi_layer_vkBindImageMemory2 (src/layer/swapchain_api.cpp:374-425). -/
def wsi_layer_vkBindImageMemory2 (o : BindOracle) (pBindInfos : List BindInfo) : BindOutcome :=
  bind_loop o pBindInfos.enum VK_SUCCESS

/-! ## Queue present (src/layer/swapchain_api.cpp:132-250) -/

/-- VkPresentIdKHR: swapchain count and the optional pPresentIds array. -/
structure VkPresentIdKHR where
  swapchainCount : Nat
  pPresentIds : Option (List Nat)
deriving DecidableEq, Repr

/-- VkSwapchainPresentFenceInfoEXT: the per-swapchain fences
(0 = VK_NULL_HANDLE). -/
structure VkSwapchainPresentFenceInfoEXT where
  pFences : List Nat
deriving DecidableEq, Repr

/-- VkSwapchainPresentModeInfoEXT: the per-swapchain present modes. -/
structure VkSwapchainPresentModeInfoEXT where
  pPresentModes : List VkPresentModeKHR
deriving DecidableEq, Repr

/-- VkPresentInfoKHR as wsi_layer_vkQueuePresentKHR reads it: the wait
semaphores, the swapchain/image-index arrays, whether pResults is non-null,
the pNext extensions looked up by find_extension (none when absent), and
whether wsi::create_frame_boundary(present_info) yields a value. -/
structure VkPresentInfoKHR where
  waitSemaphoreCount : Nat
  pWaitSemaphores : List Nat
  swapchainCount : Nat
  pSwapchains : List Nat
  pImageIndices : List Nat
  pResults_nonnull : Bool
  present_ids : Option VkPresentIdKHR
  present_fence_info : Option VkSwapchainPresentFenceInfoEXT
  present_mode_info : Option VkSwapchainPresentModeInfoEXT
  frame_boundary : Bool
deriving DecidableEq, Repr

/-- wsi::swapchain_presentation_parameters as filled by the present loop
(value-initialised, then the fields set at
src/layer/swapchain_api.cpp:216-235). -/
structure swapchain_presentation_parameters where
  present_fence : Nat
  switch_presentation_mode : Bool
  present_mode : VkPresentModeKHR
  image_index : Nat
  present_id : Nat
  use_image_present_semaphore : Bool
  handle_present_frame_boundary_event : Bool
deriving DecidableEq, Repr

/-- wsi::queue_submit_semaphores as built by submit_wait_request: the
application's wait semaphores and the collected per-swapchain image-present
semaphores, each with its count. -/
structure queue_submit_semaphores where
  wait_semaphores : List Nat
  wait_semaphores_count : Nat
  swapchain_semaphores : List Nat
  swapchain_semaphores_count : Nat
deriving DecidableEq, Repr

/-- One call to wsi::sync_queue_submit: the semaphores handed over and
whether a frame-boundary extension was chained on the submission. -/
structure SyncSubmission where
  semaphores : queue_submit_semaphores
  has_frame_boundary : Bool
deriving DecidableEq, Repr

/-- Oracle for the collaborators of wsi_layer_vkQueuePresentKHR: whether
the util::vector allocation in submit_wait_request succeeds,
swapchain_base::get_image_present_semaphore (per swapchain handle and image
index), the result of wsi::sync_queue_submit, and
swapchain_base::queue_present (per swapchain handle and presentation
parameters). -/
structure PresentOracle where
  try_resize_ok : Bool
  get_image_present_semaphore : Nat → Nat → Nat
  sync_queue_submit_result : SyncSubmission → VkResult
  queue_present : Nat → swapchain_presentation_parameters → VkResult

/-- submit_wait_request (src/layer/swapchain_api.cpp:132-164).  Takes the
caller's frame_boundary_event_handled value (passed by reference in the
source) and returns the VkResult, the possibly updated flag, and the trace
of sync_queue_submit calls performed.  On allocation failure it returns
VK_ERROR_OUT_OF_HOST_MEMORY without touching the flag or submitting. -/
def submit_wait_request (o : PresentOracle) (present_info : VkPresentInfoKHR)
    (frame_boundary_event_handled : Bool) : VkResult × Bool × List SyncSubmission :=
  if ¬ o.try_resize_ok then
    (VK_ERROR_OUT_OF_HOST_MEMORY, frame_boundary_event_handled, [])
  else
    let swapchain_semaphores := (List.range present_info.swapchainCount).map (fun i =>
      o.get_image_present_semaphore (present_info.pSwapchains.getD i 0)
        (present_info.pImageIndices.getD i 0))
    let semaphores : queue_submit_semaphores :=
      ⟨present_info.pWaitSemaphores, present_info.waitSemaphoreCount,
       swapchain_semaphores, swapchain_semaphores.length⟩
    let submission : SyncSubmission := ⟨semaphores, present_info.frame_boundary⟩
    let handled := present_info.frame_boundary
    let r := o.sync_queue_submit_result submission
    if r ≠ VK_SUCCESS then (r, handled, [submission])
    else (VK_SUCCESS, handled, [submission])

/-- The per-swapchain presentation parameters built at iteration i of the
present loop (src/layer/swapchain_api.cpp:210-235). -/
def build_present_params (pPresentInfo : VkPresentInfoKHR)
    (use_image_present_semaphore frame_boundary_event_handled : Bool)
    (i : Nat) : swapchain_presentation_parameters :=
  let present_id :=
    match pPresentInfo.present_ids with
    | some ids =>
      if ids.pPresentIds.isSome ∧ ids.swapchainCount = pPresentInfo.swapchainCount then
        (ids.pPresentIds.getD []).getD i 0
      else 0
    | none => 0
  let present_fence :=
    match pPresentInfo.present_fence_info with
    | none => 0
    | some fence_info => fence_info.pFences.getD i 0
  let switch_mode := pPresentInfo.present_mode_info.isSome
  let present_mode :=
    match pPresentInfo.present_mode_info with
    | some mode_info => mode_info.pPresentModes.getD i 0
    | none => 0
  { present_fence := present_fence,
    switch_presentation_mode := switch_mode,
    present_mode := present_mode,
    image_index := pPresentInfo.pImageIndices.getD i 0,
    present_id := present_id,
    use_image_present_semaphore := use_image_present_semaphore,
    handle_present_frame_boundary_event := frame_boundary_event_handled }

/-- The present loop (src/layer/swapchain_api.cpp:204-247) over the list of
loop indices, carrying ret exactly as the source does.  Returns the final
ret, the per-swapchain results in order (written to pResults when non-null),
and the queue_present invocations (swapchain handle and parameters) in
order. -/
def present_loop (o : PresentOracle) (pPresentInfo : VkPresentInfoKHR)
    (use_image_present_semaphore frame_boundary_event_handled : Bool) :
    List Nat → VkResult →
      VkResult × List VkResult × List (Nat × swapchain_presentation_parameters)
  | [], ret => (ret, [], [])
  | i :: rest, ret =>
    let swapc := pPresentInfo.pSwapchains.getD i 0
    let present_params :=
      build_present_params pPresentInfo use_image_present_semaphore
        frame_boundary_event_handled i
    let res := o.queue_present swapc present_params
    let ret2 := if res ≠ VK_SUCCESS ∧ ret = VK_SUCCESS then res else ret
    let out := present_loop o pPresentInfo use_image_present_semaphore
      frame_boundary_event_handled rest ret2
    (out.1, res :: out.2.1, (swapc, present_params) :: out.2.2)

/-- Outcome of wsi_layer_vkQueuePresentKHR (layer-handled path): the
returned VkResult, the values written to pResults (empty when pResults is
null or the call returned before the loop), the number of
submit_wait_request invocations, the sync_queue_submit trace, and the
queue_present invocations in order. -/
structure PresentOutcome where
  ret : VkResult
  results_written : List VkResult
  wait_request_calls : Nat
  sync_submissions : List SyncSubmission
  presented : List (Nat × swapchain_presentation_parameters)
deriving DecidableEq, Repr

/-- wsi_layer_vkQueuePresentKHR (src/layer/swapchain_api.cpp:166-250), on
the path where the layer owns all swapchains of the call.  When
swapchainCount > 1 it calls submit_wait_request once; the TRY_LOG_CALL
around it returns its error immediately (see the macro note above), so a
failed wait submission reaches no queue_present. -/
def wsi_layer_vkQueuePresentKHR (o : PresentOracle)
    (pPresentInfo : VkPresentInfoKHR) : PresentOutcome :=
  if 1 < pPresentInfo.swapchainCount then
    let swr := submit_wait_request o pPresentInfo true
    if swr.1 ≠ VK_SUCCESS then
      { ret := swr.1, results_written := [], wait_request_calls := 1,
        sync_submissions := swr.2.2, presented := [] }
    else
      let out := present_loop o pPresentInfo true swr.2.1
        (List.range pPresentInfo.swapchainCount) VK_SUCCESS
      { ret := out.1,
        results_written := if pPresentInfo.pResults_nonnull then out.2.1 else [],
        wait_request_calls := 1,
        sync_submissions := swr.2.2,
        presented := out.2.2 }
  else
    let out := present_loop o pPresentInfo false true
      (List.range pPresentInfo.swapchainCount) VK_SUCCESS
    { ret := out.1,
      results_written := if pPresentInfo.pResults_nonnull then out.2.1 else [],
      wait_request_calls := 0,
      sync_submissions := [],
      presented := out.2.2 }

/-! ## Wayland surface formats with memoization (src/unnamed/part_000:220-238) -/

/-- The state of a wsi::wayland::surface_properties object that the
queries read or write: the memoized supported_formats map (kept as its
ordered list of records) and the m_supported_modes member (set by the
constructor to the value of the global m_supported_modes above and never
written by a query). -/
structure wayland_surface_state where
  supported_formats : List surface_format_properties
  supported_modes_member : List VkPresentModeKHR
deriving DecidableEq, Repr

/-- Oracle for the collaborators of the Wayland get_surface_formats: the
result and produced map contents of surface_format_properties_map_init
(which queries the device), whether the instance reports image compression
support, and the result and updated map of
surface_format_properties_map_add_compression. -/
structure FormatInitOracle where
  map_init_result : VkResult
  map_init_contents : List surface_format_properties
  has_image_compression_support : Bool
  compression_result : VkResult
  compression_contents : List surface_format_properties

/-- wsi::wayland::surface_properties::get_surface_formats
(src/unnamed/part_000:220-238).  When the memoized map is empty it is
populated first (TRY_LOG_CALL returns the error of a failed initialisation
immediately, with the map left as the failed step produced it); otherwise
the helper runs directly on the memoized map, which is not modified.
Returns the query output and the new state. -/
def wayland_get_surface_formats (o : FormatInitOracle) (st : wayland_surface_state)
    (surfaceFormatCount : Nat) (has_surface_formats has_extended_formats : Bool) :
    (VkResult × Nat × List VkSurfaceFormatKHR × List (VkSurfaceFormatKHR × Nat)) ×
      wayland_surface_state :=
  if st.supported_formats.length = 0 then
    if o.map_init_result ≠ VK_SUCCESS then
      ((o.map_init_result, surfaceFormatCount, [], []),
       { st with supported_formats := o.map_init_contents })
    else if o.has_image_compression_support ∧ o.compression_result ≠ VK_SUCCESS then
      ((o.compression_result, surfaceFormatCount, [], []),
       { st with supported_formats := o.compression_contents })
    else
      let populated :=
        if o.has_image_compression_support then o.compression_contents
        else o.map_init_contents
      (surface_properties_formats_helper populated surfaceFormatCount
         has_surface_formats has_extended_formats,
       { st with supported_formats := populated })
  else
    (surface_properties_formats_helper st.supported_formats surfaceFormatCount
       has_surface_formats has_extended_formats, st)

/-- wsi::wayland::surface_properties::get_surface_present_modes
(src/unnamed/part_000:240-247): defers to the common helper on the
surface's m_supported_modes member, which it does not modify; the unchanged
state is returned alongside the query output. -/
def wayland_get_surface_present_modes (st : wayland_surface_state)
    (pPresentModeCount : Nat) (has_present_modes : Bool) :
    (VkResult × Nat × List VkPresentModeKHR) × wayland_surface_state :=
  (get_surface_present_modes_common pPresentModeCount has_present_modes
     st.supported_modes_member, st)

/-! ## Helper lemmas -/

/-- Reading the first n entries of a list through getD reproduces its
n-entry head. -/
lemma map_getD_range_eq_take {α : Type _} (d : α) :
    ∀ (l : List α) (n : Nat), n ≤ l.length →
      (List.range n).map (fun i => l.getD i d) = l.take n
  | _, 0, _ => by simp
  | [], n + 1, h => by simp at h
  | a :: t, n + 1, h => by
    rw [List.range_succ_eq_map, List.map_cons, List.map_map]
    have ht : n ≤ t.length := by simpa using h
    have := map_getD_range_eq_take d t n ht
    simp only [Function.comp, List.getD_cons_succ, List.getD_cons_zero, List.take_succ_cons]
    rw [← this]
    rfl

/-- Reading every entry of a list through getD reproduces the list. -/
lemma map_getD_range_length {α : Type _} (d : α) (l : List α) :
    (List.range l.length).map (fun i => l.getD i d) = l := by
  rw [map_getD_range_eq_take d l l.length (le_refl _), List.take_length]

/-- The format writing loop writes exactly min n (number of records)
entries, split between the plain and the extended output. -/
lemma formats_helper_write_length :
    ∀ (fmts : List surface_format_properties) (n : Nat) (ext : Bool),
      (formats_helper_write fmts n ext).1.length +
        (formats_helper_write fmts n ext).2.length = min n fmts.length
  | [], n, ext => by simp [formats_helper_write]
  | f :: fs, 0, ext => by simp [formats_helper_write]
  | f :: fs, n + 1, ext => by
    have ih := formats_helper_write_length fs n ext
    by_cases hext : ext = true <;>
      simp [formats_helper_write, hext] at * <;> omega

/-- With capacity at least the number of records, the format writing loop
writes all records to the selected output. -/
lemma formats_helper_write_full :
    ∀ (fmts : List surface_format_properties) (n : Nat) (ext : Bool),
      fmts.length ≤ n →
      formats_helper_write fmts n ext =
        if ext then ([], fmts.map fill_format_properties)
        else (fmts.map (fun p => p.m_surface_format), [])
  | [], n, ext, _ => by cases ext <;> simp [formats_helper_write]
  | f :: fs, 0, ext, h => by simp at h
  | f :: fs, n + 1, ext, h => by
    have ih := formats_helper_write_full fs n ext (by simpa using h)
    cases ext <;> simp [formats_helper_write, ih]

/-- The first non-success code of a result list (VK_SUCCESS when every
entry succeeded). -/
def first_non_success (rs : List VkResult) : VkResult :=
  (rs.filter (fun r => r ≠ VK_SUCCESS)).headD VK_SUCCESS

/-- The per-swapchain results produced by the present loop are the
queue_present results of its indices, in order. -/
lemma present_loop_results (o : PresentOracle) (pi : VkPresentInfoKHR) (u f : Bool) :
    ∀ (idxs : List Nat) (ret : VkResult),
      (present_loop o pi u f idxs ret).2.1 =
        idxs.map (fun i => o.queue_present (pi.pSwapchains.getD i 0) (build_present_params pi u f i))
  | [], ret => by simp [present_loop]
  | i :: rest, ret => by
    simp only [present_loop, List.map_cons]
    rw [present_loop_results o pi u f rest]

/-- The queue_present invocations of the present loop are one per index,
in order, each on the swapchain at that index. -/
lemma present_loop_presented (o : PresentOracle) (pi : VkPresentInfoKHR) (u f : Bool) :
    ∀ (idxs : List Nat) (ret : VkResult),
      (present_loop o pi u f idxs ret).2.2 =
        idxs.map (fun i => (pi.pSwapchains.getD i 0, build_present_params pi u f i))
  | [], ret => by simp [present_loop]
  | i :: rest, ret => by
    simp only [present_loop, List.map_cons]
    rw [present_loop_presented o pi u f rest]

/-- Peeling one result off first_non_success. -/
lemma first_non_success_cons (r : VkResult) (rs : List VkResult) :
    first_non_success (r :: rs) =
      if r = VK_SUCCESS then first_non_success rs else r := by
  by_cases h : r = VK_SUCCESS <;> simp [first_non_success, List.filter_cons, h]

/-- The aggregate carried by the present loop: started from ret, it ends as
ret when ret is already a failure, else as the first non-success
per-swapchain result. -/
lemma present_loop_ret (o : PresentOracle) (pi : VkPresentInfoKHR) (u f : Bool) :
    ∀ (idxs : List Nat) (ret : VkResult),
      (present_loop o pi u f idxs ret).1 =
        if ret ≠ VK_SUCCESS then ret
        else first_non_success (idxs.map (fun i =>
          o.queue_present (pi.pSwapchains.getD i 0) (build_present_params pi u f i)))
  | [], ret => by
    by_cases h : ret = VK_SUCCESS <;> simp [present_loop, first_non_success, h]
  | i :: rest, ret => by
    have ih := present_loop_ret o pi u f rest
    simp only [present_loop, List.map_cons, first_non_success_cons]
    rw [ih]
    by_cases h : ret = VK_SUCCESS
    · simp only [h]
      split_ifs <;> simp_all
    · simp [h]

/-! ## Claim theorems -/

/-- C5: for every swapchain created by the layer, regardless of the
presentation mode the application requested in the create info, swapchain
init receives the application's create info with the presentation mode
replaced by VK_PRESENT_MODE_FIFO_KHR; the requested mode is never passed to
init. -/
theorem C5_create_normalizes_present_mode_to_fifo (o : CreateOracle)
    (info c : VkSwapchainCreateInfoKHR)
    (hc : c ∈ (wsi_layer_vkCreateSwapchainKHR o info).init_calls) :
    c = { info with presentMode := VK_PRESENT_MODE_FIFO_KHR } := by
  have hcases : (wsi_layer_vkCreateSwapchainKHR o info).init_calls = [] ∨
      (wsi_layer_vkCreateSwapchainKHR o info).init_calls =
        [{ info with presentMode := VK_PRESENT_MODE_FIFO_KHR }] := by
    unfold wsi_layer_vkCreateSwapchainKHR
    split_ifs <;> simp [apply_ite CreateOutcome.init_calls]
  rcases hcases with hcase | hcase <;> rw [hcase] at hc <;> simp_all

def C5_oracle : CreateOracle :=
  ⟨true, true, VK_SUCCESS, true, fun _ => VK_SUCCESS, VK_SUCCESS⟩

def C5_info : VkSwapchainCreateInfoKHR :=
  ⟨7, VK_PRESENT_MODE_MAILBOX_KHR, 3, 42⟩

/-- Witness for C5: a layer-created swapchain whose application requested
MAILBOX has init called with FIFO. -/
theorem C5_create_normalizes_present_mode_to_fifo_witness :
    (⟨7, VK_PRESENT_MODE_FIFO_KHR, 3, 42⟩ : VkSwapchainCreateInfoKHR) =
      { C5_info with presentMode := VK_PRESENT_MODE_FIFO_KHR } :=
  C5_create_normalizes_present_mode_to_fifo C5_oracle C5_info
    ⟨7, VK_PRESENT_MODE_FIFO_KHR, 3, 42⟩ (by decide)

/-- C6: a surface-capability query whose info chain names an unsupported
present mode is rejected with VK_ERROR_OUT_OF_HOST_MEMORY before any
capabilities are computed; a supported mode, or an absent
VkSurfacePresentModeEXT, passes the check with VK_SUCCESS. -/
theorem C6_present_mode_query_check (pm : VkPresentModeKHR) :
    (pm ∉ m_supported_modes →
       wayland_get_surface_capabilities2 (some pm) =
         ⟨VK_ERROR_OUT_OF_HOST_MEMORY, false⟩) ∧
    (pm ∈ m_supported_modes →
       check_surface_present_mode_query_is_supported (some pm) m_supported_modes =
         VK_SUCCESS) ∧
    check_surface_present_mode_query_is_supported none m_supported_modes = VK_SUCCESS := by
  refine ⟨fun h => ?_, fun h => ?_, rfl⟩
  · simp [wayland_get_surface_capabilities2, check_surface_present_mode_query_is_supported,
      h, VK_ERROR_OUT_OF_HOST_MEMORY, VK_SUCCESS]
  · simp [check_surface_present_mode_query_is_supported, h]

/-- Witness for C6: IMMEDIATE is not supported and is rejected; FIFO is
supported and passes. -/
theorem C6_present_mode_query_check_witness :
    wayland_get_surface_capabilities2 (some VK_PRESENT_MODE_IMMEDIATE_KHR) =
      ⟨VK_ERROR_OUT_OF_HOST_MEMORY, false⟩ ∧
    check_surface_present_mode_query_is_supported (some VK_PRESENT_MODE_FIFO_KHR)
      m_supported_modes = VK_SUCCESS :=
  ⟨(C6_present_mode_query_check VK_PRESENT_MODE_IMMEDIATE_KHR).1 (by decide),
   (C6_present_mode_query_check VK_PRESENT_MODE_FIFO_KHR).2.1 (by decide)⟩

/-- C7: in both the Wayland and the X11 static compatibility table, a mode
is compatible with another only when the two are equal and the mode is one
declared in the table (FIFO or MAILBOX): no two distinct modes are ever
reported compatible. -/
theorem C7_compatibility_table_self_only (a b : VkPresentModeKHR) :
    (is_compatible_present_modes wayland_compatible_present_modes_list a b = true →
       a = b ∧ (a = VK_PRESENT_MODE_FIFO_KHR ∨ a = VK_PRESENT_MODE_MAILBOX_KHR)) ∧
    (is_compatible_present_modes x11_compatible_present_modes_list a b = true →
       a = b ∧ (a = VK_PRESENT_MODE_FIFO_KHR ∨ a = VK_PRESENT_MODE_MAILBOX_KHR)) := by
  constructor <;>
  · intro h
    simp [is_compatible_present_modes, wayland_compatible_present_modes_list,
      x11_compatible_present_modes_list] at h
    rcases h with ⟨h1, h2⟩ | ⟨h1, h2⟩ <;>
      simp_all [VK_PRESENT_MODE_FIFO_KHR, VK_PRESENT_MODE_MAILBOX_KHR]

/-- Witness for C7: FIFO-with-FIFO in the Wayland table and
MAILBOX-with-MAILBOX in the X11 table. -/
theorem C7_compatibility_table_self_only_witness :
    (VK_PRESENT_MODE_FIFO_KHR = VK_PRESENT_MODE_FIFO_KHR ∧
      (VK_PRESENT_MODE_FIFO_KHR = VK_PRESENT_MODE_FIFO_KHR ∨
       VK_PRESENT_MODE_FIFO_KHR = VK_PRESENT_MODE_MAILBOX_KHR)) ∧
    (VK_PRESENT_MODE_MAILBOX_KHR = VK_PRESENT_MODE_MAILBOX_KHR ∧
      (VK_PRESENT_MODE_MAILBOX_KHR = VK_PRESENT_MODE_FIFO_KHR ∨
       VK_PRESENT_MODE_MAILBOX_KHR = VK_PRESENT_MODE_MAILBOX_KHR)) :=
  ⟨(C7_compatibility_table_self_only VK_PRESENT_MODE_FIFO_KHR
      VK_PRESENT_MODE_FIFO_KHR).1 (by decide),
   (C7_compatibility_table_self_only VK_PRESENT_MODE_MAILBOX_KHR
      VK_PRESENT_MODE_MAILBOX_KHR).2 (by decide)⟩

/-- C8: both platform presentation-support queries report VK_FALSE whenever
the device lacks file-descriptor fence synchronization, and a VK_TRUE
answer implies that sync check passed. -/
theorem C8_presentation_support_requires_fence_sync :
    ∀ (dev_supports_sync wl_protocols_ok visual_ok : Bool),
      (dev_supports_sync = false →
         GetPhysicalDeviceWaylandPresentationSupportKHR dev_supports_sync wl_protocols_ok =
           false) ∧
      (GetPhysicalDeviceWaylandPresentationSupportKHR dev_supports_sync wl_protocols_ok =
         true → dev_supports_sync = true) ∧
      (dev_supports_sync = false →
         GetPhysicalDeviceXcbPresentationSupportKHR dev_supports_sync visual_ok = false) ∧
      (GetPhysicalDeviceXcbPresentationSupportKHR dev_supports_sync visual_ok = true →
         dev_supports_sync = true) := by
  decide

/-- Witness for C8, at devices without and with fence-descriptor sync. -/
theorem C8_presentation_support_requires_fence_sync_witness :
    GetPhysicalDeviceWaylandPresentationSupportKHR false true = false ∧
    (true : Bool) = true ∧
    GetPhysicalDeviceXcbPresentationSupportKHR false true = false ∧
    ((true : Bool) = true) :=
  ⟨(C8_presentation_support_requires_fence_sync false true true).1 rfl,
   (C8_presentation_support_requires_fence_sync true true true).2.1 (by decide),
   (C8_presentation_support_requires_fence_sync false true true).2.2.1 rfl,
   (C8_presentation_support_requires_fence_sync true true true).2.2.2 (by decide)⟩

/-- C10: the null-pointer / capacity contract of both enumeration helpers.
With a null output array the count is set to the number of supported
entries and the result is VK_SUCCESS; with a capacity smaller than the
number of supported entries exactly capacity entries are written and the
result is VK_INCOMPLETE; otherwise all supported entries are written with
VK_SUCCESS; never are more entries written than the capacity. -/
theorem C10_enumeration_count_contract (fmts : List surface_format_properties)
    (capacity : Nat) (hs he : Bool) (modes : List VkPresentModeKHR) (hm : Bool) :
    ((hs = false ∧ he = false) →
       surface_properties_formats_helper fmts capacity hs he =
         (VK_SUCCESS, fmts.length, [], [])) ∧
    ((hs = true ∨ he = true) →
       ((surface_properties_formats_helper fmts capacity hs he).2.2.1.length +
          (surface_properties_formats_helper fmts capacity hs he).2.2.2.length ≤ capacity) ∧
       (capacity < fmts.length →
          (surface_properties_formats_helper fmts capacity hs he).1 = VK_INCOMPLETE ∧
          (surface_properties_formats_helper fmts capacity hs he).2.1 = capacity ∧
          (surface_properties_formats_helper fmts capacity hs he).2.2.1.length +
            (surface_properties_formats_helper fmts capacity hs he).2.2.2.length = capacity) ∧
       (fmts.length ≤ capacity →
          (surface_properties_formats_helper fmts capacity hs he).1 = VK_SUCCESS ∧
          (surface_properties_formats_helper fmts capacity hs he).2.1 = fmts.length ∧
          (surface_properties_formats_helper fmts capacity hs he).2.2 =
            (if he = true then ([], fmts.map fill_format_properties)
             else (fmts.map (fun p => p.m_surface_format), [])))) ∧
    (hm = false →
       get_surface_present_modes_common capacity hm modes =
         (VK_SUCCESS, modes.length, [])) ∧
    (hm = true →
       ((get_surface_present_modes_common capacity hm modes).2.2.length ≤ capacity) ∧
       (capacity < modes.length →
          (get_surface_present_modes_common capacity hm modes).1 = VK_INCOMPLETE ∧
          (get_surface_present_modes_common capacity hm modes).2.1 = capacity ∧
          (get_surface_present_modes_common capacity hm modes).2.2.length = capacity) ∧
       (modes.length ≤ capacity →
          (get_surface_present_modes_common capacity hm modes).1 = VK_SUCCESS ∧
          (get_surface_present_modes_common capacity hm modes).2.1 = modes.length ∧
          (get_surface_present_modes_common capacity hm modes).2.2 = modes)) := by
  refine ⟨fun h => ?_, fun h => ?_, fun h => ?_, fun h => ?_⟩
  · simp [surface_properties_formats_helper, h.1, h.2]
  · have hcond : ¬ (hs = false ∧ he = false) := by
      rcases h with h | h <;> simp [h]
    simp only [surface_properties_formats_helper, if_neg hcond]
    refine ⟨?_, fun hlt => ?_, fun hle => ?_⟩
    · rw [formats_helper_write_length]
      exact le_trans (Nat.min_le_left _ _) (Nat.min_le_left _ _)
    · refine ⟨by simp [hlt], by simp [Nat.min_eq_left (le_of_lt hlt)], ?_⟩
      rw [formats_helper_write_length, Nat.min_eq_left (le_of_lt hlt),
        Nat.min_eq_left (le_of_lt hlt)]
    · refine ⟨by simp [Nat.not_lt.mpr hle], by simp [Nat.min_eq_right hle], ?_⟩
      rw [Nat.min_eq_right hle, formats_helper_write_full fmts fmts.length he (le_refl _)]
  · simp [get_surface_present_modes_common, h]
  · have hcond : ¬ (hm = false) := by simp [h]
    simp only [get_surface_present_modes_common, if_neg hcond]
    refine ⟨?_, fun hlt => ?_, fun hle => ?_⟩
    · simp [Nat.min_le_left]
    · refine ⟨by simp [hlt], by simp [Nat.min_eq_left (le_of_lt hlt)], ?_⟩
      simp [Nat.min_eq_left (le_of_lt hlt)]
    · refine ⟨by simp [Nat.not_lt.mpr hle], by simp [Nat.min_eq_right hle], ?_⟩
      show (List.range (min capacity modes.length)).map (fun i => modes.getD i 0) = modes
      rw [Nat.min_eq_right hle]
      exact map_getD_range_length 0 modes

def C10_fmts : List surface_format_properties := [⟨⟨1, 0⟩, 0⟩, ⟨⟨3, 0⟩, 0⟩]

/-- Witness for C10: each capacity case of both helpers at concrete
inputs. -/
theorem C10_enumeration_count_contract_witness :
    surface_properties_formats_helper C10_fmts 0 false false = (VK_SUCCESS, 2, [], []) ∧
    (surface_properties_formats_helper C10_fmts 1 true false).1 = VK_INCOMPLETE ∧
    (surface_properties_formats_helper C10_fmts 5 true false).1 = VK_SUCCESS ∧
    get_surface_present_modes_common 9 false m_supported_modes = (VK_SUCCESS, 2, []) ∧
    (get_surface_present_modes_common 1 true m_supported_modes).1 = VK_INCOMPLETE ∧
    (get_surface_present_modes_common 2 true m_supported_modes).2.2 = m_supported_modes := by
  refine ⟨?_, ?_, ?_, ?_, ?_, ?_⟩
  · exact (C10_enumeration_count_contract C10_fmts 0 false false m_supported_modes false).1
      ⟨rfl, rfl⟩
  · exact (((C10_enumeration_count_contract C10_fmts 1 true false m_supported_modes
      false).2.1 (Or.inl rfl)).2.1 (by decide)).1
  · exact (((C10_enumeration_count_contract C10_fmts 5 true false m_supported_modes
      false).2.1 (Or.inl rfl)).2.2 (by decide)).1
  · exact (C10_enumeration_count_contract C10_fmts 9 false false m_supported_modes
      false).2.2.1 rfl
  · exact (((C10_enumeration_count_contract C10_fmts 1 true false m_supported_modes
      true).2.2.2 rfl).2.1 (by decide)).1
  · exact (((C10_enumeration_count_contract C10_fmts 2 true false m_supported_modes
      true).2.2.2 rfl).2.2 (by decide)).2.2

def C2_oracle : BindOracle :=
  ⟨fun h => decide (h = 1), true, fun _ => VK_SUCCESS,
   fun _ _ => VK_ERROR_INITIALIZATION_FAILED, fun _ => VK_SUCCESS⟩

def C2_bind_infos : List BindInfo :=
  [⟨none, true⟩, ⟨some ⟨1, 0⟩, true⟩, ⟨none, true⟩]

/-- C2 (evaluation at the failing input): a 3-entry batch bind whose second
entry targets a layer-owned swapchain image that was never acquired.  The
TRY_LOG around is_bind_allowed returns the error from the whole entrypoint:
the call returns the entry's error but the third entry is never attempted,
and no per-binding status is recorded for the failing entry - the code's own
comment ("all memory binding operations must be attempted, so the results
are stored rather than returned early upon failure") and the claim are both
violated. -/
theorem C2_bind_batch_aborted_by_unacquired_image :
    wsi_layer_vkBindImageMemory2 C2_oracle C2_bind_infos =
      ⟨VK_ERROR_INITIALIZATION_FAILED, [(0, VK_SUCCESS)], [0]⟩ ∧
    (1, VK_ERROR_INITIALIZATION_FAILED) ∉
      (wsi_layer_vkBindImageMemory2 C2_oracle C2_bind_infos).statuses_written ∧
    2 ∉ (wsi_layer_vkBindImageMemory2 C2_oracle C2_bind_infos).attempted := by
  decide

def VK_ERROR_DEVICE_LOST : VkResult := -4

/-- The per-swapchain image-present semaphores collected by
submit_wait_request: one per swapchain in the batch. -/
def batch_wait_semaphores (o : PresentOracle) (pi : VkPresentInfoKHR) : List Nat :=
  (List.range pi.swapchainCount).map (fun i =>
    o.get_image_present_semaphore (pi.pSwapchains.getD i 0) (pi.pImageIndices.getD i 0))

/-- The single synchronization submission issued by submit_wait_request:
the application's wait semaphores together with the collected per-swapchain
image-present semaphores. -/
def batch_wait_submission (o : PresentOracle) (pi : VkPresentInfoKHR) : SyncSubmission :=
  ⟨⟨pi.pWaitSemaphores, pi.waitSemaphoreCount,
    batch_wait_semaphores o pi, (batch_wait_semaphores o pi).length⟩,
   pi.frame_boundary⟩

/-- When the semaphore vector allocation succeeds, submit_wait_request
performs exactly one synchronization submission, and returns the
sync_queue_submit result together with the frame-boundary handling flag. -/
lemma submit_wait_request_eval (o : PresentOracle) (pi : VkPresentInfoKHR)
    (fbeh : Bool) (htr : o.try_resize_ok = true) :
    submit_wait_request o pi fbeh =
      (o.sync_queue_submit_result (batch_wait_submission o pi), pi.frame_boundary,
       [batch_wait_submission o pi]) := by
  simp only [submit_wait_request, htr, not_true_eq_false, if_false,
    batch_wait_submission, batch_wait_semaphores]
  split_ifs with h
  · rfl
  · rw [not_not] at h
    rw [← h]

/-- C3: on the layer-handled multi-swapchain path, if the batch-wait
submission fails then wsi_layer_vkQueuePresentKHR returns that error and no
swapchain's queue_present is attempted (nothing presented, nothing written
to pResults); an allocation failure in submit_wait_request surfaces as
VK_ERROR_OUT_OF_HOST_MEMORY. -/
theorem C3_wait_failure_no_partial_present (o : PresentOracle) (pi : VkPresentInfoKHR) :
    (o.try_resize_ok = false →
       (submit_wait_request o pi true).1 = VK_ERROR_OUT_OF_HOST_MEMORY) ∧
    (1 < pi.swapchainCount →
       (submit_wait_request o pi true).1 ≠ VK_SUCCESS →
       (wsi_layer_vkQueuePresentKHR o pi).ret = (submit_wait_request o pi true).1 ∧
       (wsi_layer_vkQueuePresentKHR o pi).presented = [] ∧
       (wsi_layer_vkQueuePresentKHR o pi).results_written = []) := by
  constructor
  · intro h
    simp [submit_wait_request, h]
  · intro hK hfail
    simp only [wsi_layer_vkQueuePresentKHR, if_pos hK]
    rw [if_pos hfail]
    exact ⟨rfl, rfl, rfl⟩

def C3_oracle : PresentOracle :=
  ⟨false, fun _ _ => 0, fun _ => VK_SUCCESS, fun _ _ => VK_SUCCESS⟩

def C3_pinfo : VkPresentInfoKHR :=
  ⟨0, [], 2, [5, 6], [0, 0], true, none, none, none, false⟩

/-- Witness for C3: a 2-swapchain present whose wait-submission allocation
fails presents nothing and returns out-of-host-memory. -/
theorem C3_wait_failure_no_partial_present_witness :
    (submit_wait_request C3_oracle C3_pinfo true).1 = VK_ERROR_OUT_OF_HOST_MEMORY ∧
    (wsi_layer_vkQueuePresentKHR C3_oracle C3_pinfo).ret =
      (submit_wait_request C3_oracle C3_pinfo true).1 ∧
    (wsi_layer_vkQueuePresentKHR C3_oracle C3_pinfo).presented = [] ∧
    (wsi_layer_vkQueuePresentKHR C3_oracle C3_pinfo).results_written = [] := by
  have h := C3_wait_failure_no_partial_present C3_oracle C3_pinfo
  exact ⟨h.1 rfl, (h.2 (by decide) (by decide)).1, (h.2 (by decide) (by decide)).2.1,
    (h.2 (by decide) (by decide)).2.2⟩

/-- C4: the batch-wait submission routine is invoked exactly once when the
call spans more than one swapchain and not at all otherwise; when invoked
and its allocation succeeds, exactly one synchronization submission is
issued, carrying the application's wait semaphores plus one image-present
semaphore per swapchain in the batch. -/
theorem C4_wait_submission_once_iff_multi (o : PresentOracle) (pi : VkPresentInfoKHR) :
    ((wsi_layer_vkQueuePresentKHR o pi).wait_request_calls =
       if 1 < pi.swapchainCount then 1 else 0) ∧
    (¬ 1 < pi.swapchainCount →
       (wsi_layer_vkQueuePresentKHR o pi).sync_submissions = []) ∧
    (1 < pi.swapchainCount → o.try_resize_ok = true →
       (wsi_layer_vkQueuePresentKHR o pi).sync_submissions =
         [batch_wait_submission o pi]) ∧
    (batch_wait_submission o pi).semaphores.wait_semaphores = pi.pWaitSemaphores ∧
    (batch_wait_semaphores o pi).length = pi.swapchainCount := by
  refine ⟨?_, fun hK => ?_, fun hK htr => ?_, rfl, by simp [batch_wait_semaphores]⟩
  · by_cases hK : 1 < pi.swapchainCount
    · simp only [wsi_layer_vkQueuePresentKHR, if_pos hK]
      split_ifs <;> rfl
    · simp [wsi_layer_vkQueuePresentKHR, if_neg hK, hK]
  · simp only [wsi_layer_vkQueuePresentKHR, if_neg hK]
  · simp only [wsi_layer_vkQueuePresentKHR, if_pos hK,
      submit_wait_request_eval o pi true htr]
    split_ifs <;> rfl

def C4_oracle : PresentOracle :=
  ⟨true, fun swapc idx => 10 * swapc + idx, fun _ => VK_SUCCESS, fun _ _ => VK_SUCCESS⟩

def C4_pinfo_multi : VkPresentInfoKHR :=
  ⟨1, [3], 2, [5, 6], [0, 1], false, none, none, none, false⟩

def C4_pinfo_single : VkPresentInfoKHR :=
  ⟨1, [3], 1, [5], [0], false, none, none, none, false⟩

/-- Witness for C4: a 2-swapchain present submits the batch wait exactly
once with both image-present semaphores; a 1-swapchain present skips it. -/
theorem C4_wait_submission_once_iff_multi_witness :
    (wsi_layer_vkQueuePresentKHR C4_oracle C4_pinfo_multi).wait_request_calls = 1 ∧
    (wsi_layer_vkQueuePresentKHR C4_oracle C4_pinfo_multi).sync_submissions =
      [batch_wait_submission C4_oracle C4_pinfo_multi] ∧
    (wsi_layer_vkQueuePresentKHR C4_oracle C4_pinfo_single).wait_request_calls = 0 ∧
    (wsi_layer_vkQueuePresentKHR C4_oracle C4_pinfo_single).sync_submissions = [] := by
  have hm := C4_wait_submission_once_iff_multi C4_oracle C4_pinfo_multi
  have hs := C4_wait_submission_once_iff_multi C4_oracle C4_pinfo_single
  refine ⟨?_, hm.2.2.1 (by decide) rfl, ?_, hs.2.1 (by decide)⟩
  · rw [hm.1]; decide
  · rw [hs.1]; decide

/-- C1: on the layer-handled multi-swapchain path, once the batch-wait
submission has succeeded the present loop invokes queue_present for every
swapchain of the batch in order (regardless of earlier per-swapchain
failures), writes each per-swapchain result to pResults when that array is
non-null, and returns the first non-success per-swapchain result
(VK_SUCCESS when all succeed). -/
theorem C1_batch_present_no_early_exit (o : PresentOracle) (pi : VkPresentInfoKHR)
    (hlen : pi.pSwapchains.length = pi.swapchainCount)
    (hK : 1 < pi.swapchainCount)
    (hswr : (submit_wait_request o pi true).1 = VK_SUCCESS) :
    ((wsi_layer_vkQueuePresentKHR o pi).presented =
       (List.range pi.swapchainCount).map (fun i =>
         (pi.pSwapchains.getD i 0,
          build_present_params pi true (submit_wait_request o pi true).2.1 i))) ∧
    ((wsi_layer_vkQueuePresentKHR o pi).presented.map Prod.fst = pi.pSwapchains) ∧
    (pi.pResults_nonnull = true →
       (wsi_layer_vkQueuePresentKHR o pi).results_written =
         (List.range pi.swapchainCount).map (fun i =>
           o.queue_present (pi.pSwapchains.getD i 0)
             (build_present_params pi true (submit_wait_request o pi true).2.1 i))) ∧
    ((wsi_layer_vkQueuePresentKHR o pi).ret =
       first_non_success ((List.range pi.swapchainCount).map (fun i =>
         o.queue_present (pi.pSwapchains.getD i 0)
           (build_present_params pi true (submit_wait_request o pi true).2.1 i)))) := by
  have hnot : ¬ ((submit_wait_request o pi true).1 ≠ VK_SUCCESS) := by simp [hswr]
  have hproj :
      wsi_layer_vkQueuePresentKHR o pi =
        { ret := (present_loop o pi true (submit_wait_request o pi true).2.1
            (List.range pi.swapchainCount) VK_SUCCESS).1,
          results_written := if pi.pResults_nonnull then
            (present_loop o pi true (submit_wait_request o pi true).2.1
              (List.range pi.swapchainCount) VK_SUCCESS).2.1 else [],
          wait_request_calls := 1,
          sync_submissions := (submit_wait_request o pi true).2.2,
          presented := (present_loop o pi true (submit_wait_request o pi true).2.1
            (List.range pi.swapchainCount) VK_SUCCESS).2.2 } := by
    simp only [wsi_layer_vkQueuePresentKHR, if_pos hK]
    rw [if_neg hnot]
  rw [hproj]
  refine ⟨?_, ?_, fun hres => ?_, ?_⟩
  · exact present_loop_presented o pi true _ _ _
  · show (present_loop o pi true (submit_wait_request o pi true).2.1
      (List.range pi.swapchainCount) VK_SUCCESS).2.2.map Prod.fst = pi.pSwapchains
    rw [present_loop_presented, List.map_map]
    have : (Prod.fst ∘ fun i =>
        ((pi.pSwapchains.getD i 0 : Nat),
         build_present_params pi true (submit_wait_request o pi true).2.1 i)) =
        fun i => pi.pSwapchains.getD i 0 := rfl
    rw [this, ← hlen]
    exact map_getD_range_length 0 pi.pSwapchains
  · show (if pi.pResults_nonnull then
        (present_loop o pi true (submit_wait_request o pi true).2.1
          (List.range pi.swapchainCount) VK_SUCCESS).2.1 else []) = _
    rw [if_pos hres, present_loop_results]
  · show (present_loop o pi true (submit_wait_request o pi true).2.1
      (List.range pi.swapchainCount) VK_SUCCESS).1 = _
    rw [present_loop_ret]
    simp

def C1_oracle : PresentOracle :=
  ⟨true, fun _ _ => 0, fun _ => VK_SUCCESS,
   fun swapc _ => if swapc = 6 then VK_ERROR_DEVICE_LOST else VK_SUCCESS⟩

def C1_pinfo : VkPresentInfoKHR :=
  ⟨0, [], 3, [5, 6, 7], [0, 1, 2], true, none, none, none, false⟩

/-- Witness for C1: a 3-swapchain present whose second swapchain fails
still presents the third; pResults reads success, failure, success and the
aggregate equals the second swapchain's error. -/
theorem C1_batch_present_no_early_exit_witness :
    (wsi_layer_vkQueuePresentKHR C1_oracle C1_pinfo).results_written =
      [VK_SUCCESS, VK_ERROR_DEVICE_LOST, VK_SUCCESS] ∧
    (wsi_layer_vkQueuePresentKHR C1_oracle C1_pinfo).ret = VK_ERROR_DEVICE_LOST ∧
    (wsi_layer_vkQueuePresentKHR C1_oracle C1_pinfo).presented.map Prod.fst =
      [5, 6, 7] := by
  have h := C1_batch_present_no_early_exit C1_oracle C1_pinfo (by decide) (by decide)
    (by decide)
  refine ⟨?_, ?_, ?_⟩
  · rw [h.2.2.1 rfl]; decide
  · rw [h.2.2.2]; decide
  · rw [h.2.1]; decide

/-- C9: without an intervening surface change, repeating a present-mode
query, or (once the memoized format map is populated) a format query with
the same arguments, returns identical result codes, counts and lists, and
leaves the surface state unchanged. -/
theorem C9_surface_queries_idempotent (o : FormatInitOracle)
    (st : wayland_surface_state) (surfaceFormatCount pPresentModeCount : Nat)
    (hs he hm : Bool) (hpop : st.supported_formats ≠ []) :
    ((wayland_get_surface_formats o st surfaceFormatCount hs he).2 = st ∧
     wayland_get_surface_formats o
         (wayland_get_surface_formats o st surfaceFormatCount hs he).2
         surfaceFormatCount hs he =
       wayland_get_surface_formats o st surfaceFormatCount hs he) ∧
    ((wayland_get_surface_present_modes st pPresentModeCount hm).2 = st ∧
     wayland_get_surface_present_modes
         (wayland_get_surface_present_modes st pPresentModeCount hm).2
         pPresentModeCount hm =
       wayland_get_surface_present_modes st pPresentModeCount hm) := by
  have hlen : ¬ st.supported_formats.length = 0 := by
    simpa [List.length_eq_zero] using hpop
  refine ⟨⟨?_, ?_⟩, rfl, rfl⟩
  · simp [wayland_get_surface_formats, hlen]
  · simp [wayland_get_surface_formats, hlen]

def C9_oracle : FormatInitOracle :=
  ⟨VK_SUCCESS, [], false, VK_SUCCESS, []⟩

def C9_state : wayland_surface_state :=
  ⟨[⟨⟨1, 0⟩, 0⟩], [2, 1]⟩

/-- Witness for C9: repeated queries on a populated surface state. -/
theorem C9_surface_queries_idempotent_witness :
    wayland_get_surface_formats C9_oracle
        (wayland_get_surface_formats C9_oracle C9_state 1 true false).2 1 true false =
      wayland_get_surface_formats C9_oracle C9_state 1 true false ∧
    wayland_get_surface_present_modes
        (wayland_get_surface_present_modes C9_state 2 true).2 2 true =
      wayland_get_surface_present_modes C9_state 2 true :=
  have h := C9_surface_queries_idempotent C9_oracle C9_state 1 2 true false true
    (by decide)
  ⟨h.1.2, h.2.2⟩
